import Mathlib

/-!
Shallow embedding of the Book-Alchemy recommendation code
(`src/app.py`: `get_book_recommendation`, the `/recommend` route) and the
`Book` model (`src/data_models.py`), together with theorems settling the
spec claims about the recommendation subsystem.

External effects are made explicit parameters:
* `random.choice(xs)` is modelled by an oracle index `choice : Nat`;
  the element picked is `xs[choice % len(xs)]`, so quantifying over
  `choice` ranges over every possible choice.
* the single outbound HTTP GET for the cover image is modelled by a
  `NetResult` value: either a transport failure (`requests.RequestException`)
  or an `HttpResponse` carrying the observables of the real response.
-/

namespace BookAlchemy

/-- The `Book` model of `src/data_models.py` as seen by the recommendation
code: `title`, the author's `name` resolved through the `author` relation,
the optional `isbn`, the optional float `rating` (embedded as `ℚ`) and the
optional `cover_url` column. `id` is the primary key. -/
structure Book where
  id : Nat
  title : String
  author_name : String
  isbn : Option String
  rating : Option ℚ
  cover_url : Option String
deriving DecidableEq, Repr

instance : Inhabited Book := ⟨⟨0, "", "", Option.none, Option.none, Option.none⟩⟩

/-- A JSON-serializable value of the returned dict: a string or Python `None`. -/
inductive Value where
  | str : String → Value
  | null : Value
deriving DecidableEq, Repr

/-- Observables of an HTTP response to the cover GET. The code reads only
`status_code` and `url` (the final URL after redirects); `content_type`,
`decodes_as_image`, `width` and `height` are carried so that the spec's
cover-validator contract can be stated over the same response. -/
structure HttpResponse where
  status_code : Nat
  url : String
  content_type : String
  decodes_as_image : Bool
  width : Nat
  height : Nat
deriving DecidableEq, Repr

/-- Outcome of the outbound GET: `Except.error ()` models a raised
`requests.RequestException`, `Except.ok` a delivered response. -/
abbrev NetResult := Except Unit HttpResponse

/-- `random.choice(xs)`: the oracle index `i` selects element `i % len(xs)`.
In the source `random.choice` is only applied to non-empty lists. -/
def pick (xs : List Book) (i : Nat) : Book :=
  xs.getD (i % xs.length) default

/-- Python `max` over a list of ratings (`max(book.rating for book in rated_books)`):
`none` on the empty list (where Python would raise), otherwise the maximum. -/
def pymax : List ℚ → Option ℚ
  | [] => Option.none
  | x :: xs => some (xs.foldl max x)

/-- Line 47: `rated_books = [book for book in books if book.rating is not None]`. -/
def rated_books (books : List Book) : List Book :=
  books.filter (fun b => b.rating.isSome)

/-- Python truthiness of the optional float `selected_book.rating`
(line 72): `None` and `0.0` are falsy, every other float is truthy. -/
def pyTruthy (r : Option ℚ) : Bool :=
  match r with
  | Option.none => false
  | some x => decide (x ≠ 0)

/-- Lines 47-55: prefer the books with the highest rating, breaking ties by
`random.choice`; fall back to `random.choice(books)` when no book is rated. -/
def select_book (books : List Book) (choice : Nat) : Book :=
  let rb := rated_books books
  if rb.isEmpty then pick books choice
  else
    let max_rating := pymax (rb.filterMap Book.rating)
    let top_rated := rb.filter (fun b => decide (b.rating = max_rating))
    pick top_rated choice

/-- Lines 58-65: GET the cover URL; the cover is the response's (final) URL
when the status code is exactly 200, `None` otherwise, and `None` when a
`requests.RequestException` is raised. -/
def fetch_cover (net : NetResult) : Option String :=
  match net with
  | Except.error _ => Option.none
  | Except.ok resp => if resp.status_code = 200 then some resp.url else Option.none

/-- The dict returned on the success path of `get_book_recommendation`
(lines 67-73), with its five keys. -/
structure RecommendationRec where
  title : String
  author : String
  isbn : Option String
  cover_image : Option String
  reason : String
deriving DecidableEq, Repr

def optValue : Option String → Value
  | Option.none => Value.null
  | some s => Value.str s

/-- The returned dict as an association list, in the literal's key order
(lines 67-73). -/
def rec_dict (r : RecommendationRec) : List (String × Value) :=
  [("title", Value.str r.title),
   ("author", Value.str r.author),
   ("isbn", optValue r.isbn),
   ("cover_image", optValue r.cover_image),
   ("reason", Value.str r.reason)]

/-- The key set (in order) of the returned dict. -/
def rec_keys (r : RecommendationRec) : List String :=
  (rec_dict r).map Prod.fst

/-- `get_book_recommendation(books)` (lines 31-77): `None` on an empty list,
otherwise the dict built from the selected book and the cover fetch. The
`reason` string is `"Recommended for its high rating."` exactly when the
selected book's rating is truthy, else `"Recommended for its popularity."`. -/
def get_book_recommendation (books : List Book) (choice : Nat) (net : NetResult) :
    Option RecommendationRec :=
  if books.isEmpty then Option.none
  else
    let selected_book := select_book books choice
    let cover_image := fetch_cover net
    some { title := selected_book.title
         , author := selected_book.author_name
         , isbn := selected_book.isbn
         , cover_image := cover_image
         , reason :=
             if pyTruthy selected_book.rating then "Recommended for its high rating."
             else "Recommended for its popularity." }

/-- Outcome rendered by the `/recommend` route: a page with the
recommendation, or a page with no recommendation plus the flash
`"No books available for recommendation."`. -/
inductive RecommendPage where
  | withRec : RecommendationRec → RecommendPage
  | noBooks : RecommendPage
deriving DecidableEq, Repr

/-- The `/recommend` route (lines 331-344): read all books, call
`get_book_recommendation`, render the result. A returned dict is non-empty
and hence truthy, so `if recommendation:` is the `some`/`none` split. -/
def recommend (books : List Book) (choice : Nat) (net : NetResult) : RecommendPage :=
  match get_book_recommendation books choice net with
  | some r => RecommendPage.withRec r
  | Option.none => RecommendPage.noBooks

/-- The `/recommend` route with the database state made explicit: the route
runs `Book.query.all()` (a read) and no `db.session.add`, `delete` or
`commit` appears in lines 331-344 or in `get_book_recommendation`, so the
transcription returns the state unchanged. -/
def recommend_route (db : List Book) (choice : Nat) (net : NetResult) :
    RecommendPage × List Book :=
  let books := db
  let recommendation := get_book_recommendation books choice net
  match recommendation with
  | some r => (RecommendPage.withRec r, db)
  | Option.none => (RecommendPage.noBooks, db)

/-- `book.rating = int(rating); db.session.commit()` as a state update, for
contrast with the read-only route: the POST branch of `/book/<id>`
(lines 166-179 of `src/app.py`) does write the database. -/
def set_rating (db : List Book) (book_id : Nat) (r : ℚ) : List Book :=
  db.map (fun b => if b.id = book_id then { b with rating := some r } else b)

/-- The POST branch of the `book_detail` route (lines 166-179): commit the
new rating only when the form value is a digit string between 1 and 10. -/
def book_detail_post (db : List Book) (book_id : Nat) (rating_form : String) :
    List Book :=
  if rating_form ≠ "" ∧ rating_form.all Char.isDigit ∧
      1 ≤ rating_form.toNat?.getD 0 ∧ rating_form.toNat?.getD 0 ≤ 10 then
    set_rating db book_id (rating_form.toNat?.getD 0 : ℚ)
  else db

/-- Whether `p` is a prefix of `s`, computed on the character lists (the
kernel-reducible equivalent of `String.startsWith`). -/
def strStartsWith (s p : String) : Bool :=
  p.data.isPrefixOf s.data

/-- Follows the spec words (§4.1 Cover Validator), for comparison with
`fetch_cover`: return the candidate URL iff the GET succeeds with status
200, the declared content type begins with `image`, the body decodes as a
raster image, and both dimensions exceed 1 pixel. -/
def spec_validate_cover (url : String) (net : NetResult) : Option String :=
  match net with
  | Except.error _ => Option.none
  | Except.ok r =>
      if r.status_code = 200 ∧ strStartsWith r.content_type "image" ∧
          r.decodes_as_image = true ∧ 1 < r.width ∧ 1 < r.height
      then some url else Option.none

/-- Follows the spec words (§3): membership in the closed provenance set
`"AI suggestion from <service>"`, `"Because you liked '<seed title>'"`,
`"Random suggestion from your library"`, `"No books available"`, with the
parametrised entries generalised to their fixed prefixes. -/
def spec_provenance (reason : String) : Bool :=
  strStartsWith reason "AI suggestion from" ||
  strStartsWith reason "Because you liked" ||
  reason == "Random suggestion from your library" ||
  reason == "No books available"

/-! ### Concrete sample data -/

def book1984 : Book :=
  { id := 2, title := "1984", author_name := "George Orwell",
    isbn := some "9780451524935", rating := Option.none, cover_url := Option.none }

def bookPride : Book :=
  { id := 1, title := "Pride and Prejudice", author_name := "Jane Austen",
    isbn := some "9780141439518", rating := some 5, cover_url := Option.none }

def netFail : NetResult := Except.error ()

def netOk200 : NetResult :=
  Except.ok { status_code := 200,
              url := "https://covers.openlibrary.org/b/isbn/9780451524935-M.jpg",
              content_type := "image/jpeg", decodes_as_image := true,
              width := 300, height := 450 }

def netHtml200 : NetResult :=
  Except.ok { status_code := 200, url := "http://host/cover",
              content_type := "text/html", decodes_as_image := false,
              width := 1, height := 1 }

/-- The record built on the success path of `get_book_recommendation`
(lines 67-73), as a function of the inputs; used to state inversion lemmas. -/
def rec_of (books : List Book) (choice : Nat) (net : NetResult) : RecommendationRec :=
  { title := (select_book books choice).title
  , author := (select_book books choice).author_name
  , isbn := (select_book books choice).isbn
  , cover_image := fetch_cover net
  , reason :=
      if pyTruthy (select_book books choice).rating then "Recommended for its high rating."
      else "Recommended for its popularity." }

/-! ### Helper lemmas -/

lemma pick_mem (xs : List Book) (i : Nat) (h : xs ≠ []) : pick xs i ∈ xs := by
  have hl : 0 < xs.length := List.length_pos.mpr h
  have hlt : i % xs.length < xs.length := Nat.mod_lt _ hl
  rw [pick, List.getD_eq_getElem _ _ hlt]
  exact List.getElem_mem hlt

lemma pick_surj (xs : List Book) (b : Book) (hb : b ∈ xs) : ∃ i, pick xs i = b := by
  rcases List.mem_iff_getElem.mp hb with ⟨n, hn, hnb⟩
  refine ⟨n, ?_⟩
  have hmod : n % xs.length = n := Nat.mod_eq_of_lt hn
  rw [pick, hmod, List.getD_eq_getElem _ _ hn]
  exact hnb

lemma foldl_max_mem (xs : List ℚ) (x : ℚ) : xs.foldl max x = x ∨ xs.foldl max x ∈ xs := by
  induction xs generalizing x with
  | nil => exact Or.inl rfl
  | cons y ys ih =>
    simp only [List.foldl_cons]
    rcases ih (max x y) with h | h
    · rcases max_choice x y with hm | hm
      · rw [h, hm]; exact Or.inl rfl
      · rw [h, hm]; exact Or.inr (List.mem_cons_self _ _)
    · exact Or.inr (List.mem_cons_of_mem _ h)

lemma le_foldl_max (xs : List ℚ) (x : ℚ) : x ≤ xs.foldl max x := by
  induction xs generalizing x with
  | nil => exact le_refl x
  | cons y ys ih =>
    simp only [List.foldl_cons]
    exact le_trans (le_max_left x y) (ih (max x y))

lemma mem_le_foldl_max (xs : List ℚ) (x y : ℚ) (hy : y ∈ xs) : y ≤ xs.foldl max x := by
  induction xs generalizing x with
  | nil => cases hy
  | cons z zs ih =>
    simp only [List.foldl_cons]
    rcases List.mem_cons.mp hy with h | h
    · subst h; exact le_trans (le_max_right x y) (le_foldl_max zs _)
    · exact ih _ h

lemma pymax_spec (l : List ℚ) (h : l ≠ []) :
    ∃ m, pymax l = some m ∧ m ∈ l ∧ ∀ y ∈ l, y ≤ m := by
  cases l with
  | nil => exact absurd rfl h
  | cons x xs =>
    refine ⟨xs.foldl max x, rfl, ?_, ?_⟩
    · rcases foldl_max_mem xs x with h1 | h1
      · rw [h1]; exact List.mem_cons_self _ _
      · exact List.mem_cons_of_mem _ h1
    · intro y hy
      rcases List.mem_cons.mp hy with h1 | h1
      · subst h1; exact le_foldl_max xs y
      · exact mem_le_foldl_max xs x y h1

lemma mem_rated_books {books : List Book} {b : Book} :
    b ∈ rated_books books ↔ b ∈ books ∧ b.rating.isSome = true :=
  List.mem_filter

lemma select_book_eq_rated (books : List Book) (choice : Nat)
    (h : rated_books books ≠ []) :
    select_book books choice =
      pick ((rated_books books).filter
        (fun b => decide (b.rating = pymax ((rated_books books).filterMap Book.rating))))
        choice := by
  have hempty : (rated_books books).isEmpty = false := by
    cases hrb : rated_books books with
    | nil => exact absurd hrb h
    | cons a l => rfl
  unfold select_book
  simp [hempty]

lemma select_book_eq_unrated (books : List Book) (choice : Nat)
    (h : rated_books books = []) :
    select_book books choice = pick books choice := by
  unfold select_book
  simp [h]

lemma select_book_spec (books : List Book) (choice : Nat)
    (h : rated_books books ≠ []) :
    ∃ m, pymax ((rated_books books).filterMap Book.rating) = some m ∧
      select_book books choice ∈ books ∧
      (select_book books choice).rating = some m ∧
      ∀ b ∈ books, ∀ q, b.rating = some q → q ≤ m := by
  have hrs : (rated_books books).filterMap Book.rating ≠ [] := by
    rcases List.exists_mem_of_ne_nil _ h with ⟨b0, hb0⟩
    have hb0s := (mem_rated_books.mp hb0).2
    rcases Option.isSome_iff_exists.mp hb0s with ⟨q0, hq0⟩
    exact List.ne_nil_of_mem (List.mem_filterMap.mpr ⟨b0, hb0, hq0⟩)
  rcases pymax_spec _ hrs with ⟨m, hm, hmmem, hub⟩
  rcases List.mem_filterMap.mp hmmem with ⟨b1, hb1, hb1r⟩
  have hb1t : b1 ∈ (rated_books books).filter
      (fun b => decide (b.rating = pymax ((rated_books books).filterMap Book.rating))) := by
    refine List.mem_filter.mpr ⟨hb1, ?_⟩
    rw [hm, hb1r]
    exact decide_eq_true rfl
  have htopne : ((rated_books books).filter
      (fun b => decide (b.rating = pymax ((rated_books books).filterMap Book.rating)))) ≠ [] :=
    List.ne_nil_of_mem hb1t
  have hselmem : select_book books choice ∈ (rated_books books).filter
      (fun b => decide (b.rating = pymax ((rated_books books).filterMap Book.rating))) := by
    rw [select_book_eq_rated books choice h]
    exact pick_mem _ _ htopne
  have hself := List.mem_filter.mp hselmem
  refine ⟨m, hm, (mem_rated_books.mp hself.1).1, ?_, ?_⟩
  · have := of_decide_eq_true hself.2
    rw [hm] at this
    exact this
  · intro b hb q hq
    have hbrated : b ∈ rated_books books :=
      mem_rated_books.mpr ⟨hb, by rw [hq]; rfl⟩
    exact hub q (List.mem_filterMap.mpr ⟨b, hbrated, hq⟩)

lemma select_book_mem (books : List Book) (choice : Nat) (h : books ≠ []) :
    select_book books choice ∈ books := by
  by_cases hrb : rated_books books = []
  · rw [select_book_eq_unrated books choice hrb]
    exact pick_mem _ _ h
  · rcases select_book_spec books choice hrb with ⟨m, _, hmem, _, _⟩
    exact hmem

lemma get_some_of_ne_nil (books : List Book) (choice : Nat) (net : NetResult)
    (h : books ≠ []) :
    get_book_recommendation books choice net = some (rec_of books choice net) := by
  have hempty : books.isEmpty = false := by
    cases books with
    | nil => exact absurd rfl h
    | cons a l => rfl
  unfold get_book_recommendation rec_of
  simp [hempty]

lemma get_some_inv {books : List Book} {choice : Nat} {net : NetResult}
    {r : RecommendationRec}
    (h : get_book_recommendation books choice net = some r) :
    books ≠ [] ∧ r = rec_of books choice net := by
  cases books with
  | nil => simp [get_book_recommendation] at h
  | cons a l =>
    have hne : (a :: l) ≠ ([] : List Book) := by simp
    have h2 := (get_some_of_ne_nil (a :: l) choice net hne).symm.trans h
    exact ⟨hne, (Option.some.inj h2).symm⟩

lemma rec_of_reason (books : List Book) (choice : Nat) (net : NetResult) :
    (rec_of books choice net).reason = "Recommended for its high rating." ∨
    (rec_of books choice net).reason = "Recommended for its popularity." := by
  cases hp : pyTruthy (select_book books choice).rating
  · right; simp [rec_of, hp]
  · left; simp [rec_of, hp]

end BookAlchemy

namespace BookAlchemy

example : get_book_recommendation [] 0 netFail = Option.none := by decide

example :
    get_book_recommendation [book1984] 0 netFail =
      some { title := "1984", author := "George Orwell",
             isbn := some "9780451524935", cover_image := Option.none,
             reason := "Recommended for its popularity." } := by decide

example :
    get_book_recommendation [bookPride, book1984] 0 netOk200 =
      some { title := "Pride and Prejudice", author := "Jane Austen",
             isbn := some "9780141439518",
             cover_image := some "https://covers.openlibrary.org/b/isbn/9780451524935-M.jpg",
             reason := "Recommended for its high rating." } := by decide

/-! ### Claim theorems -/

/-- Claim C1, counterexample: on the empty book list the code returns
`None` (and the route renders no suggestion, flashing an error), not a
degenerate record with title `"No books available"` — contradicting the
claim that the entry point returns such a Suggestion rather than
returning nothing. -/
theorem C1_counterexample :
    get_book_recommendation [] 0 netFail = Option.none ∧
    recommend [] 0 netFail = RecommendPage.noBooks := ⟨rfl, rfl⟩

/-- Claim C1, amended: for the empty book list, for every choice oracle and
network outcome, `get_book_recommendation` returns `None` and the
`/recommend` route renders the no-books page (with an error flash) instead
of a degenerate Suggestion. -/
theorem C1_empty_library_returns_none (choice : Nat) (net : NetResult) :
    get_book_recommendation [] choice net = Option.none ∧
    recommend [] choice net = RecommendPage.noBooks :=
  ⟨rfl, rfl⟩

/-- Claim C2, counterexample: on a non-empty library whose cover GET raises
a transport error, the returned record has `cover_image = None` — the cover
field is neither a validated URL nor a default sentinel, refuting that it
is never empty or absent. -/
theorem C2_counterexample :
    get_book_recommendation [book1984] 0 netFail =
      some { title := "1984", author := "George Orwell",
             isbn := some "9780451524935", cover_image := Option.none,
             reason := "Recommended for its popularity." } := by decide

/-- Claim C2, amended: the `cover_image` field of every returned record
equals the cover-fetch result: the final response URL when the GET returns
status 200, and `None` on any other status or on a transport error. There
is no default sentinel. -/
theorem C2_cover_image_eq_fetch (books : List Book) (choice : Nat) (net : NetResult)
    (r : RecommendationRec) (h : get_book_recommendation books choice net = some r) :
    r.cover_image = fetch_cover net := by
  rcases get_some_inv h with ⟨-, rfl⟩
  rfl

/-- Witness for C2: the amended theorem applied at a one-book library with
a 200 response. -/
theorem C2_cover_image_eq_fetch_witness :
    (rec_of [book1984] 0 netOk200).cover_image = fetch_cover netOk200 :=
  C2_cover_image_eq_fetch [book1984] 0 netOk200 (rec_of [book1984] 0 netOk200) (by decide)

/-- Claim C3, counterexample: a returned reason string,
`"Recommended for its high rating."`, lies outside the closed four-string
provenance set of the spec (checked here even against the generous
prefix-based membership). -/
theorem C3_counterexample :
    get_book_recommendation [bookPride] 0 netFail =
      some { title := "Pride and Prejudice", author := "Jane Austen",
             isbn := some "9780141439518", cover_image := Option.none,
             reason := "Recommended for its high rating." } ∧
    spec_provenance "Recommended for its high rating." = false := by decide

/-- Claim C3, amended: the `reason` of every returned record is one of
exactly two strings, `"Recommended for its high rating."` (when the
selected book has a truthy rating) and
`"Recommended for its popularity."` (otherwise). -/
theorem C3_reason_two_strings (books : List Book) (choice : Nat) (net : NetResult)
    (r : RecommendationRec) (h : get_book_recommendation books choice net = some r) :
    r.reason = "Recommended for its high rating." ∨
    r.reason = "Recommended for its popularity." := by
  rcases get_some_inv h with ⟨-, rfl⟩
  exact rec_of_reason books choice net

/-- Witness for C3: the amended theorem applied at a rated one-book library. -/
theorem C3_reason_two_strings_witness :
    (rec_of [bookPride] 0 netFail).reason = "Recommended for its high rating." ∨
    (rec_of [bookPride] 0 netFail).reason = "Recommended for its popularity." :=
  C3_reason_two_strings [bookPride] 0 netFail (rec_of [bookPride] 0 netFail) (by decide)

/-- Claim C4, counterexample: a 200 response whose declared content type is
`text/html` and whose body is a 1×1 non-image is accepted by the code
(which checks only the status code), while the validator described by the
spec rejects it. -/
theorem C4_counterexample :
    fetch_cover netHtml200 = some "http://host/cover" ∧
    spec_validate_cover "http://host/cover" netHtml200 = Option.none := by decide

/-- Claim C4, amended: the cover fetch returns the response URL iff the GET
delivered a response with status exactly 200; the declared content type,
decodability and pixel dimensions are never inspected, and a transport
error yields `None`. -/
theorem C4_fetch_cover_iff (net : NetResult) (u : String) :
    fetch_cover net = some u ↔
      ∃ resp : HttpResponse,
        net = Except.ok resp ∧ resp.status_code = 200 ∧ resp.url = u := by
  cases net with
  | error e => simp [fetch_cover]
  | ok resp =>
    by_cases hs : resp.status_code = 200
    · simp [fetch_cover, hs]
    · simp [fetch_cover, hs]

/-- Witness for C4: the amended theorem applied to a 200 image response. -/
theorem C4_fetch_cover_iff_witness :
    fetch_cover netOk200 = some "https://covers.openlibrary.org/b/isbn/9780451524935-M.jpg" :=
  (C4_fetch_cover_iff netOk200 _).mpr ⟨_, rfl, rfl, rfl⟩

/-- Claim C5, counterexample: the reason of a locally produced suggestion
is `"Recommended for its popularity."`, not the spec string
`"Random suggestion from your library"`, so the reason does not indicate
the local tier of the spec. -/
theorem C5_counterexample :
    get_book_recommendation [book1984] 1 netFail =
      some { title := "1984", author := "George Orwell",
             isbn := some "9780451524935", cover_image := Option.none,
             reason := "Recommended for its popularity." } ∧
    "Recommended for its popularity." ≠ "Random suggestion from your library" := by
  exact ⟨by decide, by decide⟩

/-- Claim C5, amended: unconditionally (there are no remote tiers to fail),
the title, author and isbn of every returned record are those of some book
in the input list; the reason is one of the two local rating strings. -/
theorem C5_suggestion_from_library (books : List Book) (choice : Nat) (net : NetResult)
    (r : RecommendationRec) (h : get_book_recommendation books choice net = some r) :
    ∃ b ∈ books, r.title = b.title ∧ r.author = b.author_name ∧ r.isbn = b.isbn := by
  rcases get_some_inv h with ⟨hne, rfl⟩
  exact ⟨select_book books choice, select_book_mem books choice hne, rfl, rfl, rfl⟩

/-- Witness for C5: the amended theorem applied at a one-book library. -/
theorem C5_suggestion_from_library_witness :
    ∃ b ∈ [book1984],
      (rec_of [book1984] 0 netFail).title = b.title ∧
      (rec_of [book1984] 0 netFail).author = b.author_name ∧
      (rec_of [book1984] 0 netFail).isbn = b.isbn :=
  C5_suggestion_from_library [book1984] 0 netFail (rec_of [book1984] 0 netFail) (by decide)

/-- Claim C6, counterexample: a concrete run returns a record whose reason
matches no tier of the claimed three-tier pipeline (not even by prefix),
so the output cannot be attributed to a generative, catalog or local tier
tried in order. -/
theorem C6_counterexample :
    get_book_recommendation [bookPride, book1984] 0 netOk200 =
      some { title := "Pride and Prejudice", author := "Jane Austen",
             isbn := some "9780141439518",
             cover_image := some "https://covers.openlibrary.org/b/isbn/9780451524935-M.jpg",
             reason := "Recommended for its high rating." } ∧
    spec_provenance "Recommended for its high rating." = false ∧
    "Recommended for its high rating." ≠ "AI suggestion from Hugging Face" := by
  refine ⟨by decide, by decide, by decide⟩

/-- Claim C6, amended: the code has a single, local selection strategy
(rating-preferring choice from the input list followed by one cover
fetch); no generative or catalog tier exists, and no returned record ever
carries a provenance string of the claimed three-tier pipeline. -/
theorem C6_single_local_tier (books : List Book) (choice : Nat) (net : NetResult)
    (r : RecommendationRec) (h : get_book_recommendation books choice net = some r) :
    spec_provenance r.reason = false := by
  rcases get_some_inv h with ⟨-, rfl⟩
  rcases rec_of_reason books choice net with h2 | h2 <;> rw [h2] <;> decide

/-- Witness for C6: the amended theorem applied at a two-book library. -/
theorem C6_single_local_tier_witness :
    spec_provenance (rec_of [bookPride, book1984] 0 netFail).reason = false :=
  C6_single_local_tier [bookPride, book1984] 0 netFail
    (rec_of [bookPride, book1984] 0 netFail) (by decide)

/-- Claim C7, counterexample: a concrete returned dict has the key list
`title, author, isbn, cover_image, reason` — five keys, including `isbn`,
with the cover keyed `cover_image`, not `cover_url` — so it differs from
the claimed four-field shape. -/
theorem C7_counterexample :
    get_book_recommendation [book1984] 2 netFail =
      some { title := "1984", author := "George Orwell",
             isbn := some "9780451524935", cover_image := Option.none,
             reason := "Recommended for its popularity." } ∧
    rec_keys { title := "1984", author := "George Orwell",
               isbn := some "9780451524935", cover_image := Option.none,
               reason := "Recommended for its popularity." } ≠
      ["title", "author", "cover_url", "reason"] := by
  exact ⟨by decide, by decide⟩

/-- Claim C7, amended: every returned dict carries exactly the five keys
`title`, `author`, `isbn`, `cover_image`, `reason`, in that order; the
`reason` key is always present (the empty-library case returns `None`
rather than a record omitting it). -/
theorem C7_dict_five_keys (books : List Book) (choice : Nat) (net : NetResult)
    (r : RecommendationRec) (_h : get_book_recommendation books choice net = some r) :
    rec_keys r = ["title", "author", "isbn", "cover_image", "reason"] := rfl

/-- Witness for C7: the amended theorem applied at a one-book library. -/
theorem C7_dict_five_keys_witness :
    rec_keys (rec_of [book1984] 0 netFail) =
      ["title", "author", "isbn", "cover_image", "reason"] :=
  C7_dict_five_keys [book1984] 0 netFail (rec_of [book1984] 0 netFail) (by decide)

/-- Claim C8, confirmed: the `/recommend` route with the database state
made explicit returns the book state unchanged — neither the route body
nor `get_book_recommendation` contains a session write, in contrast with
the rating-POST route, which does update the state. -/
theorem C8_route_read_only (db : List Book) (choice : Nat) (net : NetResult) :
    (recommend_route db choice net).2 = db := by
  rcases h : get_book_recommendation db choice net with - | r <;>
    simp [recommend_route, h]

/-- Claim C9, confirmed: whenever some book is rated, the selected book is
always a member of the library whose rating equals the maximum rating
among rated books; every book attaining the maximum is selected under some
choice oracle (the support of the uniform tie-break), and no rated book
exceeds the maximum. -/
theorem C9_max_rated_selected (books : List Book) (choice : Nat)
    (h : rated_books books ≠ []) :
    ∃ m, pymax ((rated_books books).filterMap Book.rating) = some m ∧
      select_book books choice ∈ books ∧
      (select_book books choice).rating = some m ∧
      (∀ b ∈ books, ∀ q, b.rating = some q → q ≤ m) ∧
      (∀ b ∈ books, b.rating = some m → ∃ i, select_book books i = b) := by
  rcases select_book_spec books choice h with ⟨m, hm, hmem, hrat, hub⟩
  refine ⟨m, hm, hmem, hrat, hub, ?_⟩
  intro b hb hbm
  have hbrated : b ∈ rated_books books :=
    mem_rated_books.mpr ⟨hb, by rw [hbm]; rfl⟩
  have hbt : b ∈ (rated_books books).filter
      (fun b => decide (b.rating = pymax ((rated_books books).filterMap Book.rating))) := by
    refine List.mem_filter.mpr ⟨hbrated, ?_⟩
    rw [hm, hbm]
    exact decide_eq_true rfl
  rcases pick_surj _ b hbt with ⟨i, hi⟩
  exact ⟨i, by rw [select_book_eq_rated books i h]; exact hi⟩

/-- Witness for C9: the theorem applied at a two-book library with one
rated book. -/
theorem C9_max_rated_selected_witness :
    ∃ m, pymax ((rated_books [bookPride, book1984]).filterMap Book.rating) = some m ∧
      select_book [bookPride, book1984] 0 ∈ [bookPride, book1984] ∧
      (select_book [bookPride, book1984] 0).rating = some m ∧
      (∀ b ∈ [bookPride, book1984], ∀ q, b.rating = some q → q ≤ m) ∧
      (∀ b ∈ [bookPride, book1984], b.rating = some m →
        ∃ i, select_book [bookPride, book1984] i = b) :=
  C9_max_rated_selected [bookPride, book1984] 0 (by decide)

/-- Claim C10, confirmed: the embedded `get_book_recommendation` is a total
function returning an optional record — it yields `None` exactly on the
empty library, and when the cover GET raises a transport error the record
is still returned, with `cover_image = None`. -/
theorem C10_total_no_exception (books : List Book) (choice : Nat) (net : NetResult) :
    (get_book_recommendation books choice net = Option.none ↔ books = []) ∧
    (∀ r, get_book_recommendation books choice net = some r →
      net = Except.error () → r.cover_image = Option.none) := by
  constructor
  · constructor
    · intro h
      cases books with
      | nil => rfl
      | cons a l =>
        rw [get_some_of_ne_nil (a :: l) choice net (by simp)] at h
        cases h
    · intro h
      subst h
      rfl
  · intro r hr hnet
    rcases get_some_inv hr with ⟨-, rfl⟩
    subst hnet
    rfl

/-- Witness for C10: the theorem applied on the empty library and on a
one-book library with a failing cover GET. -/
theorem C10_total_no_exception_witness :
    get_book_recommendation [] 0 netFail = Option.none ∧
    (rec_of [book1984] 0 netFail).cover_image = Option.none :=
  ⟨(C10_total_no_exception [] 0 netFail).1.mpr rfl,
   (C10_total_no_exception [book1984] 0 netFail).2
     (rec_of [book1984] 0 netFail) (by decide) rfl⟩

end BookAlchemy
